import Mathlib

/-!
Verification of the genomic analysis and risk-scoring engine
(backend/genomic_utils.py): a shallow embedding of the variant parser
(VcfAnalyzer), the quality controller (GenomicQualityController) and the
polygenic risk score calculator (PolygeneticRiskCalculator), together with
theorems settling the stated properties of those components.

Python floats are embedded as rationals, Python strings as Lean strings,
and Python dicts with insertion order as association lists.  Fallible code
returns Option or Except.  Statistics fields of the analyzer output that no
verified property mentions (chromosome and variant-type distributions,
header metadata, quality summaries) are not modeled; the fields
total_variants, sample_analyzed and the parsed variant list are modeled
exactly as computed by parse_vcf.
-/

/-! ### Python string primitives -/

/-- The whitespace characters stripped by the Python str.strip method
(ASCII subset: space, tab, newline, carriage return, vertical tab, form feed). -/
def isPySpace (c : Char) : Bool :=
  c == ' ' || c == '\t' || c == '\n' || c == '\r' || c == Char.ofNat 11 || c == Char.ofNat 12

/-- Python str.strip(): drop leading and trailing whitespace. -/
def pyStrip (cs : List Char) : List Char :=
  ((cs.dropWhile isPySpace).reverse.dropWhile isPySpace).reverse

/-- Splitting a character list on a single separator character, with the
semantics of Python str.split(sep): the empty string yields one empty group,
and adjacent separators yield empty groups. -/
def splitCharList (sep : Char) : List Char → List (List Char)
  | [] => [[]]
  | c :: cs =>
    if c = sep then [] :: splitCharList sep cs
    else
      match splitCharList sep cs with
      | [] => [[c]]
      | g :: gs => (c :: g) :: gs

/-- Python s.split(sep) for a one-character separator. -/
def pySplitChar (sep : Char) (s : String) : List String :=
  (splitCharList sep s.data).map String.mk

/-- Numeric value of a list of decimal digit characters. -/
def digitsVal (ds : List Char) : Nat :=
  ds.foldl (fun a c => a * 10 + (c.toNat - 48)) 0

/-- Python int(s): strip whitespace, optional sign, then a nonempty run of
decimal digits; anything else raises ValueError, modeled as none. -/
def pyInt (s : String) : Option Int :=
  match pyStrip s.data with
  | [] => none
  | c :: cs =>
    if c = '-' then
      if cs ≠ [] ∧ cs.all Char.isDigit then some (-(digitsVal cs : Int)) else none
    else if c = '+' then
      if cs ≠ [] ∧ cs.all Char.isDigit then some ((digitsVal cs : Int)) else none
    else if (c :: cs).all Char.isDigit then some ((digitsVal (c :: cs) : Int)) else none

/-- Magnitude part of Python float(s): digits with at most one decimal point,
at least one digit overall (exponent forms are not used by the repository
inputs considered here). -/
def pyFloatMag (cs : List Char) : Option ℚ :=
  match splitCharList '.' cs with
  | [ds] => if ds ≠ [] ∧ ds.all Char.isDigit then some ((digitsVal ds : ℚ)) else none
  | [ip, fp] =>
    if (ip ≠ [] ∨ fp ≠ []) ∧ ip.all Char.isDigit ∧ fp.all Char.isDigit then
      some ((digitsVal ip : ℚ) + (digitsVal fp : ℚ) / ((10 : ℚ) ^ fp.length))
    else none
  | _ => none

/-- Python float(s) on the decimal forms appearing in variant files:
optional sign and a decimal magnitude; failure is none. -/
def pyFloat (s : String) : Option ℚ :=
  match pyStrip s.data with
  | '-' :: rest => (pyFloatMag rest).map (fun q => -q)
  | '+' :: rest => pyFloatMag rest
  | rest => pyFloatMag rest

/-- ASCII lowering of one character, as Python str.lower acts on the ASCII
disease identifiers used by the calculator. -/
def lowerChar (c : Char) : Char :=
  if 'A' ≤ c ∧ c ≤ 'Z' then Char.ofNat (c.toNat + 32) else c

/-- Python s.lower() on ASCII strings. -/
def pyLower (s : String) : String :=
  String.mk (s.data.map lowerChar)

/-- Insertion into a Python dict modeled as an insertion-ordered association
list: an existing key keeps its position and gets the new value, a new key is
appended at the end. -/
def dictInsert {β : Type} (k : String) (v : β) (d : List (String × β)) : List (String × β) :=
  if (d.lookup k).isSome then d.map (fun p => if p.1 = k then (k, v) else p)
  else d ++ [(k, v)]

/-! ### VcfAnalyzer: variant classification and line parsing -/

/-- VcfAnalyzer._classify_variant (genomic_utils.py lines 413-422): REF and ALT
both of length 1 is an SNV, longer REF is a Deletion, longer ALT is an
Insertion, equal lengths otherwise are Complex. -/
def classifyVariant (ref alt : String) : String :=
  if ref.length = 1 ∧ alt.length = 1 then "SNV"
  else if alt.length < ref.length then "Deletion"
  else if ref.length < alt.length then "Insertion"
  else "Complex"

/-- A value of the VCF INFO map: Python stores an int, a float, a string, or
True for flag entries. -/
inductive InfoValue where
  | intV : Int → InfoValue
  | ratV : ℚ → InfoValue
  | strV : String → InfoValue
  | boolV : Bool → InfoValue
deriving DecidableEq

/-- Split a character list at the first occurrence of the separator, as
Python item.split(sep, 1) when the separator occurs; none when it does not. -/
def splitFirst (sep : Char) : List Char → Option (List Char × List Char)
  | [] => none
  | c :: cs =>
    if c = sep then some ([], cs)
    else (splitFirst sep cs).map (fun p => (c :: p.1, p.2))

/-- One item of the INFO field (genomic_utils.py lines 427-439): key=value
items try float when the value contains a dot and int otherwise, falling back
to the raw string; items without an equals sign are boolean flags. -/
def parseInfoItem (item : String) : String × InfoValue :=
  match splitFirst '=' item.data with
  | some (k, v) =>
    let key := String.mk k
    let value := String.mk v
    if v.contains '.' then
      match pyFloat value with
      | some q => (key, InfoValue.ratV q)
      | none => (key, InfoValue.strV value)
    else
      match pyInt value with
      | some i => (key, InfoValue.intV i)
      | none => (key, InfoValue.strV value)
  | none => (item, InfoValue.boolV true)

/-- VcfAnalyzer._parse_info_field (genomic_utils.py lines 424-440). -/
def parseInfoField (info : String) : List (String × InfoValue) :=
  (pySplitChar ';' info).foldl (fun d item =>
    let kv := parseInfoItem item
    dictInsert kv.1 kv.2 d) []

/-- One parsed variant record, as built by _parse_variant_line. -/
structure Variant where
  chromosome : String
  position : Int
  id : Option String
  reference : String
  alternative : String
  quality : Option ℚ
  filterStatus : String
  variantType : String
  info : List (String × InfoValue)
  genotype : Option String
  genotypeQuality : Option Int
deriving DecidableEq

/-- VcfAnalyzer._parse_variant_line (genomic_utils.py lines 364-411): tab
split, at least 8 columns required, genotype and genotype quality looked up by
name in the FORMAT column when a 9th and 10th column exist; the int
conversion of the position and the float conversion of a non-dot quality can
raise ValueError, which the surrounding except turns into a skipped line
(none). -/
def parseVariantLine (line : String) : Option Variant :=
  let fields := pySplitChar '\t' line
  if fields.length < 8 then none
  else
    let chrom := fields.getD 0 ""
    let pos := fields.getD 1 ""
    let variantId := fields.getD 2 ""
    let ref := fields.getD 3 ""
    let alt := fields.getD 4 ""
    let qual := fields.getD 5 ""
    let filterStatus := fields.getD 6 ""
    let info := fields.getD 7 ""
    let gtPair : Option String × Option Int :=
      if 10 ≤ fields.length then
        let formatFields := pySplitChar ':' (fields.getD 8 "")
        let sampleData := pySplitChar ':' (fields.getD 9 "")
        let gt := match formatFields.findIdx? (fun f => f = "GT") with
          | some i => if i < sampleData.length then some (sampleData.getD i "") else none
          | none => none
        let gq := match formatFields.findIdx? (fun f => f = "GQ") with
          | some i => if i < sampleData.length then pyInt (sampleData.getD i "") else none
          | none => none
        (gt, gq)
      else (none, none)
    match pyInt pos, (if qual = "." then some none else (pyFloat qual).map some) with
    | some posInt, some quality =>
      some {
        chromosome := chrom
        position := posInt
        id := if variantId = "." then none else some variantId
        reference := ref
        alternative := alt
        quality := quality
        filterStatus := filterStatus
        variantType := classifyVariant ref alt
        info := parseInfoField info
        genotype := gtPair.1
        genotypeQuality := gtPair.2 }
    | _, _ => none

/-- A line of the file is a candidate variant line when it does not start
with the comment marker and is nonempty after stripping (parse_vcf lines
265-266). -/
def isCandidateLine (line : String) : Bool :=
  !(['#'].isPrefixOf line.data) && !(pyStrip line.data).isEmpty

/-- The fields of the parse_vcf result that the verified properties mention. -/
structure VcfResult where
  totalVariants : Nat
  sampleAnalyzed : Nat
  parsedVariants : List Variant
  sampleVariants : List Variant
deriving DecidableEq

/-- VcfAnalyzer.parse_vcf (genomic_utils.py lines 248-328) after decoding,
operating on the list of lines: candidate lines are filtered, an empty
candidate set is a structured error, at most 50000 lines are deeply analyzed,
and each line that _parse_variant_line rejects is skipped individually.
total_variants is the true candidate line count while sample_analyzed is the
number of successfully parsed sampled lines. -/
def parseVcf (lines : List String) : Except String VcfResult :=
  let variantLines := lines.filter isCandidateLine
  if variantLines.isEmpty then Except.error "No variants found in VCF file"
  else
    let sampleLines := variantLines.take 50000
    let parsedVariants := sampleLines.filterMap parseVariantLine
    Except.ok {
      totalVariants := variantLines.length
      sampleAnalyzed := parsedVariants.length
      parsedVariants := parsedVariants
      sampleVariants := parsedVariants.take 5 }

/-- sample_analyzed of a parse result, 0 on the error shape. -/
def vcfSampleAnalyzed : Except String VcfResult → Nat
  | Except.ok r => r.sampleAnalyzed
  | Except.error _ => 0

/-- total_variants of a parse result, 0 on the error shape. -/
def vcfTotalVariants : Except String VcfResult → Nat
  | Except.ok r => r.totalVariants
  | Except.error _ => 0

/-- The chromosome normalization step of _analyze_genomic_regions
(genomic_utils.py lines 466-467): one leading chr prefix is stripped. -/
def normalizeChrom (chrom : List Char) : List Char :=
  if ['c', 'h', 'r'].isPrefixOf chrom then chrom.drop 3 else chrom

/-! ### GenomicQualityController -/

/-- The quality_metrics sub-dictionary of an analyzer result: either the
no-data marker (a dict containing a status key) or real metrics whose
mean_quality key may be absent (read with a default of 0). -/
inductive QualityMetricsValue where
  | noData : QualityMetricsValue
  | metrics : Option ℚ → QualityMetricsValue
deriving DecidableEq

/-- The QualityAssessment record produced by both assessors. -/
structure QualityAssessment where
  overallQuality : String
  issues : List String
  recommendations : List String
  passFilters : Bool
deriving DecidableEq

/-- The assessment as initialized at the top of both assessors. -/
def initialAssessment : QualityAssessment :=
  { overallQuality := "Unknown", issues := [], recommendations := [], passFilters := true }

/-- The FASTQ metadata fields read by assess_fastq_quality: the
quality_metrics entry, the duplication_rate_percent of duplication_metrics,
and the std of read_length, each possibly absent. -/
structure FastqMetadata where
  qualityMetrics : Option QualityMetricsValue := none
  duplicationMetrics : Option (Option ℚ) := none
  readLengthStd : Option (Option ℚ) := none

/-- The VCF metadata fields read by assess_vcf_quality. -/
structure VcfMetadata where
  qualityMetrics : Option QualityMetricsValue := none
  totalVariants : Option Nat := none

/-- The mean-quality threshold block of assess_fastq_quality
(genomic_utils.py lines 496-511). -/
def applyFastqQualityThresholds (qm : Option QualityMetricsValue) : QualityAssessment :=
  match qm with
  | some (QualityMetricsValue.metrics mq) =>
    let meanQuality := mq.getD 0
    if meanQuality ≥ 30 then { initialAssessment with overallQuality := "Excellent" }
    else if meanQuality ≥ 25 then { initialAssessment with overallQuality := "Good" }
    else if meanQuality ≥ 20 then
      { initialAssessment with
        overallQuality := "Acceptable"
        recommendations := initialAssessment.recommendations ++ ["Consider quality trimming"] }
    else
      { initialAssessment with
        overallQuality := "Poor"
        issues := initialAssessment.issues ++ ["Low overall quality scores"]
        passFilters := false }
  | _ => initialAssessment

/-- The duplication block of assess_fastq_quality (lines 514-520). -/
def applyDuplicationCheck (dm : Option (Option ℚ)) (qa : QualityAssessment) : QualityAssessment :=
  match dm with
  | none => qa
  | some dr =>
    let dupRate := dr.getD 0
    if dupRate > 50 then
      { qa with
        issues := qa.issues ++ ["High duplication rate"]
        recommendations := qa.recommendations ++ ["Remove duplicates before analysis"] }
    else if dupRate > 20 then
      { qa with recommendations := qa.recommendations ++ ["Monitor duplication levels"] }
    else qa

/-- The read-length consistency block of assess_fastq_quality (lines 523-526). -/
def applyReadLengthCheck (rl : Option (Option ℚ)) (qa : QualityAssessment) : QualityAssessment :=
  match rl with
  | none => qa
  | some st => if st.getD 0 > 10 then { qa with issues := qa.issues ++ ["Variable read lengths"] } else qa

/-- GenomicQualityController.assess_fastq_quality (genomic_utils.py lines
487-528). -/
def assessFastqQuality (md : FastqMetadata) : QualityAssessment :=
  applyReadLengthCheck md.readLengthStd
    (applyDuplicationCheck md.duplicationMetrics
      (applyFastqQualityThresholds md.qualityMetrics))

/-- The mean-quality threshold block of assess_vcf_quality (lines 540-555). -/
def applyVcfQualityThresholds (qm : Option QualityMetricsValue) : QualityAssessment :=
  match qm with
  | some (QualityMetricsValue.metrics mq) =>
    let meanQuality := mq.getD 0
    if meanQuality ≥ 100 then { initialAssessment with overallQuality := "Excellent" }
    else if meanQuality ≥ 50 then { initialAssessment with overallQuality := "Good" }
    else if meanQuality ≥ 20 then
      { initialAssessment with
        overallQuality := "Acceptable"
        recommendations := initialAssessment.recommendations ++ ["Consider quality filtering"] }
    else
      { initialAssessment with
        overallQuality := "Poor"
        issues := initialAssessment.issues ++ ["Low variant quality scores"]
        passFilters := false }
  | _ => initialAssessment

/-- The variant density block of assess_vcf_quality (lines 558-562). -/
def applyVariantCountCheck (total : Nat) (qa : QualityAssessment) : QualityAssessment :=
  if total < 1000 then { qa with issues := qa.issues ++ ["Low variant count"] }
  else if total > 10000000 then
    { qa with recommendations := qa.recommendations ++ ["Large variant set - consider filtering"] }
  else qa

/-- GenomicQualityController.assess_vcf_quality (genomic_utils.py lines
531-564). -/
def assessVcfQuality (md : VcfMetadata) : QualityAssessment :=
  applyVariantCountCheck (md.totalVariants.getD 0) (applyVcfQualityThresholds md.qualityMetrics)

/-! ### PolygeneticRiskCalculator -/

/-- DISEASE_SNP_WEIGHTS (genomic_utils.py lines 575-596), looked up with the
lowered disease key; an unknown disease has the empty table. -/
def diseaseSnpWeights (diseaseKey : String) : List (String × ℚ) :=
  if diseaseKey = "diabetes" then
    [("rs7903146", 34/100), ("rs12255372", 29/100), ("rs1801282", -(14/100)),
     ("rs5219", 8/100), ("rs13266634", 11/100)]
  else if diseaseKey = "alzheimer" then
    [("rs429358", 112/100), ("rs7412", -(68/100)), ("rs11136000", 15/100),
     ("rs3851179", 9/100)]
  else if diseaseKey = "heart_disease" then
    [("rs599839", 29/100), ("rs17465637", 29/100), ("rs6922269", 25/100),
     ("rs1333049", 21/100)]
  else []

/-- PolygeneticRiskCalculator._interpret_prs_score (lines 759-770). -/
def interpretPrsScore (score : ℚ) : String :=
  if score ≥ 8/10 then "Very High Risk"
  else if score ≥ 6/10 then "High Risk"
  else if score ≥ 4/10 then "Moderate Risk"
  else if score ≥ 2/10 then "Low Risk"
  else "Very Low Risk"

/-- PolygeneticRiskCalculator._calculate_genotype_score (lines 722-757),
taking the genotype value as stored in the dict (a None genotype makes the
membership test raise TypeError, which the except clause turns into the
heterozygous default 1.0): split on slash when present, else on pipe, else
return 0.5; then map the count of alleles equal to "1" through
0 maps to 0.0, 1 to 1.0, 2 to 2.0, anything else to 1.0.  The snp_weight
parameter is accepted but not used, as in the source. -/
def calculateGenotypeScore (genotype : Option String) (snpWeight : ℚ) : ℚ :=
  match genotype with
  | none => 1
  | some gt =>
    let alleles : Option (List String) :=
      if gt.data.contains '/' then some (pySplitChar '/' gt)
      else if gt.data.contains '|' then some (pySplitChar '|' gt)
      else none
    match alleles with
    | none => 1/2
    | some al =>
      let riskCount := al.count "1"
      if riskCount = 0 then 0
      else if riskCount = 1 then 1
      else if riskCount = 2 then 2
      else 1

/-- A variant dict as consumed by calculate_prs: every key is read with .get,
so each field is optional; the genotype field distinguishes a missing key
(outer none, read with the default "0/1") from a stored None value
(some none). -/
structure PrsVariant where
  id : Option String := none
  genotype : Option (Option String) := none
  variantType : Option String := none
  chromosome : Option String := none
  position : Option Int := none
deriving DecidableEq

/-- The per-matched-variant record stored in found_variants (lines 627-634). -/
structure MatchedVariant where
  weight : ℚ
  genotype : Option String
  genotypeScore : ℚ
  contribution : ℚ
  chromosome : Option String
  position : Option Int
deriving DecidableEq

/-- The snp_based result dict of calculate_prs (lines 658-668). -/
structure SnpPrsResult where
  diseaseType : String
  score : ℚ
  rawPrs : ℚ
  variantsUsed : Nat
  totalPossibleVariants : Nat
  confidence : ℚ
  contributingVariants : List (String × MatchedVariant)
  interpretation : String
deriving DecidableEq

/-- The population_based result dict of _calculate_population_based_score
(lines 708-716). -/
structure PopulationPrsResult where
  diseaseType : String
  normalizedPrs : ℚ
  totalVariants : Nat
  snvCount : Nat
  indelCount : Nat
  interpretation : String
deriving DecidableEq

/-- The possible return shapes of calculate_prs: the snp_based result, the
population_based fallback result, or the error dict built by the except
clause (which no modeled operation can produce). -/
inductive PrsResult where
  | snpBased : SnpPrsResult → PrsResult
  | populationBased : PopulationPrsResult → PrsResult
  | prsError : String → PrsResult
deriving DecidableEq

/-- The normalized score carried by a result: the score key of the snp_based
dict, the normalized_prs key of the population_based dict. -/
def PrsResult.scoreValue : PrsResult → Option ℚ
  | PrsResult.snpBased r => some r.score
  | PrsResult.populationBased r => some r.normalizedPrs
  | PrsResult.prsError _ => none

/-- The method tag of a result; the error dict has none. -/
def PrsResult.methodTag : PrsResult → Option String
  | PrsResult.snpBased _ => some "snp_based"
  | PrsResult.populationBased _ => some "population_based"
  | PrsResult.prsError _ => none

/-- The contributing_variants list of a result (empty for the other shapes). -/
def PrsResult.contributingList : PrsResult → List (String × MatchedVariant)
  | PrsResult.snpBased r => r.contributingVariants
  | _ => []

/-- PolygeneticRiskCalculator._calculate_population_based_score (lines
677-720): a 0.5 baseline adjusted by the variant-count burden and a fixed
disease offset, clamped to the unit interval. -/
def calculatePopulationBasedScore (variants : List PrsVariant) (diseaseType : String) :
    PrsResult :=
  let variantCount := variants.length
  let snvCount := (variants.filter (fun v => v.variantType = some "SNV")).length
  let indelCount := variantCount - snvCount
  let baseScore : ℚ := 1/2
  let adjustment : ℚ :=
    if variantCount > 5000000 then 1/10
    else if variantCount < 1000000 then -(1/10)
    else 0
  let diseaseAdj : ℚ :=
    if pyLower diseaseType = "diabetes" then 8/100
    else if pyLower diseaseType = "alzheimer" then 5/100
    else if pyLower diseaseType = "heart_disease" then 6/100
    else 0
  let finalScore := max 0 (min 1 (baseScore + adjustment + diseaseAdj))
  PrsResult.populationBased {
    diseaseType := diseaseType
    normalizedPrs := finalScore
    totalVariants := variantCount
    snvCount := snvCount
    indelCount := indelCount
    interpretation := interpretPrsScore finalScore }

/-- The match test of the calculate_prs loop (line 616): a truthy identifier
that is a key of the disease table. -/
def matchesDiseaseB (snps : List (String × ℚ)) (v : PrsVariant) : Bool :=
  match v.id with
  | none => false
  | some vid => vid ≠ "" && (snps.lookup vid).isSome

/-- The found_variants entry built for a matched variant (lines 620-634). -/
def mkMatched (w : ℚ) (v : PrsVariant) : MatchedVariant :=
  let genotype := v.genotype.getD (some "0/1")
  let gscore := calculateGenotypeScore genotype w
  { weight := w
    genotype := genotype
    genotypeScore := gscore
    contribution := w * gscore
    chromosome := v.chromosome
    position := v.position }

/-- One iteration of the calculate_prs loop (lines 612-634) over the
accumulated found_variants dict and prs_contributions list. -/
def prsStep (snps : List (String × ℚ))
    (acc : List (String × MatchedVariant) × List ℚ) (v : PrsVariant) :
    List (String × MatchedVariant) × List ℚ :=
  match v.id with
  | none => acc
  | some vid =>
    if vid = "" then acc
    else
      match snps.lookup vid with
      | none => acc
      | some w =>
        (dictInsert vid (mkMatched w v) acc.1,
         acc.2 ++ [w * calculateGenotypeScore (v.genotype.getD (some "0/1")) w])

/-- The calculate_prs loop over the variant list. -/
def prsLoop (snps : List (String × ℚ)) :
    List PrsVariant → List (String × MatchedVariant) × List ℚ →
    List (String × MatchedVariant) × List ℚ
  | [], acc => acc
  | v :: vs, acc => prsLoop snps vs (prsStep snps acc v)

/-- PolygeneticRiskCalculator.calculate_prs (genomic_utils.py lines 598-675):
accumulate matched contributions, fall back to the population-based score
when nothing matched, otherwise normalize the raw sum with the
disease-specific affine map, clamp, and report confidence as the capped
ratio of matched to possible table entries. -/
def calculatePrs (variants : List PrsVariant) (diseaseType : String) : PrsResult :=
  let snps := diseaseSnpWeights (pyLower diseaseType)
  let acc := prsLoop snps variants ([], [])
  let rawPrs := acc.2.sum
  if acc.1.length = 0 then calculatePopulationBasedScore variants diseaseType
  else
    let normalizedPrs :=
      if pyLower diseaseType = "diabetes" then max 0 (min 1 ((rawPrs + 1) / 3))
      else if pyLower diseaseType = "alzheimer" then max 0 (min 1 ((rawPrs + 1) / 4))
      else max 0 (min 1 ((rawPrs + 2) / 4))
    PrsResult.snpBased {
      diseaseType := diseaseType
      score := normalizedPrs
      rawPrs := rawPrs
      variantsUsed := acc.1.length
      totalPossibleVariants := snps.length
      confidence := min 1 ((acc.1.length : ℚ) / ((max 1 snps.length : Nat) : ℚ))
      contributingVariants := acc.1
      interpretation := interpretPrsScore normalizedPrs }

/-- The raw score described by the specification: the sum, over the supplied
variants with a truthy identifier found in the weight table, of weight times
the genotype multiplier.  Stated from the specification text to compare with
the raw_prs accumulated by calculate_prs. -/
def specRawScore (snps : List (String × ℚ)) (variants : List PrsVariant) : ℚ :=
  (variants.map (fun v =>
    match v.id with
    | some vid =>
      if vid ≠ "" then
        match snps.lookup vid with
        | some w => w * calculateGenotypeScore (v.genotype.getD (some "0/1")) w
        | none => 0
      else 0
    | none => 0)).sum

/-! ### Helper lemmas -/

theorem clamp01_bounds (x : ℚ) : 0 ≤ max 0 (min 1 x) ∧ max 0 (min 1 x) ≤ 1 :=
  ⟨le_max_left 0 _, max_le (by norm_num) (min_le_left 1 x)⟩

theorem mem_dictInsert {β : Type} (k : String) (v : β) (d : List (String × β)) :
    ∀ p ∈ dictInsert k v d, p ∈ d ∨ p = (k, v) := by
  intro p hp
  unfold dictInsert at hp
  split at hp
  · obtain ⟨q, hq, hpq⟩ := List.mem_map.mp hp
    by_cases hqk : q.1 = k
    · right
      simp [hqk] at hpq
      exact hpq.symm
    · left
      simp [hqk] at hpq
      exact hpq ▸ hq
  · rcases List.mem_append.mp hp with h | h
    · exact Or.inl h
    · exact Or.inr (List.mem_singleton.mp h)

theorem dictInsert_length_pos {β : Type} (k : String) (v : β) (d : List (String × β)) :
    0 < (dictInsert k v d).length := by
  unfold dictInsert
  split
  · rename_i h
    cases d with
    | nil => simp [List.lookup] at h
    | cons a l => simp
  · simp

theorem dictInsert_length_ge {β : Type} (k : String) (v : β) (d : List (String × β)) :
    d.length ≤ (dictInsert k v d).length := by
  unfold dictInsert
  split <;> simp

theorem prsStep_no_match (snps : List (String × ℚ))
    (acc : List (String × MatchedVariant) × List ℚ) (v : PrsVariant)
    (h : matchesDiseaseB snps v = false) : prsStep snps acc v = acc := by
  unfold matchesDiseaseB at h
  unfold prsStep
  cases hid : v.id with
  | none => rfl
  | some vid =>
    rw [hid] at h
    simp only [Bool.and_eq_false_iff] at h
    by_cases hv : vid = ""
    · simp [hv]
    · rcases h with h | h
      · simp [hv] at h
      · have h2 : List.lookup vid snps = none := by
          cases hl : List.lookup vid snps with
          | none => rfl
          | some w => rw [hl] at h; cases h
        simp [hv, h2]

theorem prsLoop_all_no_match (snps : List (String × ℚ)) (vs : List PrsVariant)
    (acc : List (String × MatchedVariant) × List ℚ)
    (h : ∀ v ∈ vs, matchesDiseaseB snps v = false) : prsLoop snps vs acc = acc := by
  induction vs generalizing acc with
  | nil => rfl
  | cons v vs ih =>
    unfold prsLoop
    rw [prsStep_no_match snps acc v (h v (List.mem_cons_self v vs))]
    exact ih acc (fun u hu => h u (List.mem_cons_of_mem v hu))

theorem prsLoop_found_length_mono (snps : List (String × ℚ)) (vs : List PrsVariant)
    (acc : List (String × MatchedVariant) × List ℚ) :
    acc.1.length ≤ (prsLoop snps vs acc).1.length := by
  induction vs generalizing acc with
  | nil => exact le_refl _
  | cons v vs ih =>
    refine le_trans ?_ (ih (prsStep snps acc v))
    unfold prsStep
    cases v.id with
    | none => exact le_refl _
    | some vid =>
      by_cases hv : vid = ""
      · simp [hv]
      · simp only [hv, if_false]
        cases snps.lookup vid with
        | none => exact le_refl _
        | some w => exact dictInsert_length_ge vid (mkMatched w v) acc.1

theorem prsLoop_found_nonempty (snps : List (String × ℚ)) (vs : List PrsVariant)
    (v : PrsVariant) (hv : v ∈ vs) (hm : matchesDiseaseB snps v = true)
    (acc : List (String × MatchedVariant) × List ℚ) :
    0 < (prsLoop snps vs acc).1.length := by
  induction vs generalizing acc with
  | nil => cases hv
  | cons u vs ih =>
    rcases List.mem_cons.mp hv with h | h
    · subst h
      unfold prsLoop
      refine lt_of_lt_of_le ?_ (prsLoop_found_length_mono snps vs _)
      unfold matchesDiseaseB at hm
      cases hid : v.id with
      | none => rw [hid] at hm; cases hm
      | some vid =>
        rw [hid] at hm
        simp only [Bool.and_eq_true, decide_eq_true_eq] at hm
        obtain ⟨hvid, hsome⟩ := hm
        obtain ⟨w, hw⟩ := Option.isSome_iff_exists.mp hsome
        unfold prsStep
        rw [hid]
        simp only [hvid, if_false, hw]
        exact dictInsert_length_pos vid (mkMatched w v) acc.1
    · exact ih h _

theorem prsLoop_sum (snps : List (String × ℚ)) (vs : List PrsVariant)
    (acc : List (String × MatchedVariant) × List ℚ) :
    (prsLoop snps vs acc).2.sum = acc.2.sum + specRawScore snps vs := by
  induction vs generalizing acc with
  | nil => simp [prsLoop, specRawScore]
  | cons v vs ih =>
    unfold prsLoop
    rw [ih]
    have hspec : specRawScore snps (v :: vs) =
        (match v.id with
         | some vid =>
           if vid ≠ "" then
             match snps.lookup vid with
             | some w => w * calculateGenotypeScore (v.genotype.getD (some "0/1")) w
             | none => 0
           else 0
         | none => 0) + specRawScore snps vs := by
      unfold specRawScore
      rw [List.map_cons, List.sum_cons]
    rw [hspec]
    unfold prsStep
    cases v.id with
    | none => simp
    | some vid =>
      by_cases hv : vid = ""
      · simp [hv]
      · simp only [hv, if_false, ne_eq, not_false_iff, if_true]
        cases snps.lookup vid with
        | none => simp
        | some w => simp; ring

theorem prsLoop_contrib_ok (snps : List (String × ℚ)) (vs : List PrsVariant)
    (acc : List (String × MatchedVariant) × List ℚ)
    (h : ∀ km ∈ acc.1, km.2.genotypeScore = calculateGenotypeScore km.2.genotype km.2.weight ∧
      km.2.contribution = km.2.weight * km.2.genotypeScore) :
    ∀ km ∈ (prsLoop snps vs acc).1,
      km.2.genotypeScore = calculateGenotypeScore km.2.genotype km.2.weight ∧
      km.2.contribution = km.2.weight * km.2.genotypeScore := by
  induction vs generalizing acc with
  | nil => exact h
  | cons v vs ih =>
    refine ih (prsStep snps acc v) ?_
    intro km hkm
    unfold prsStep at hkm
    cases hid : v.id with
    | none =>
      rw [hid] at hkm
      exact h km hkm
    | some vid =>
      rw [hid] at hkm
      dsimp only at hkm
      by_cases hv : vid = ""
      · rw [if_pos hv] at hkm
        exact h km hkm
      · rw [if_neg hv] at hkm
        cases hl : snps.lookup vid with
        | none =>
          rw [hl] at hkm
          exact h km hkm
        | some w =>
          rw [hl] at hkm
          dsimp only at hkm
          rcases mem_dictInsert vid (mkMatched w v) acc.1 km hkm with hold | hnew
          · exact h km hold
          · subst hnew
            exact ⟨rfl, rfl⟩

/-! ### Claim theorems -/

/-- Claim C2: variant classification is a total deterministic function of the
reference and alternative allele strings returning exactly one of SNV,
Deletion, Insertion, Complex — SNV when both alleles have length 1, Deletion
when the reference is longer, Insertion when the alternative is longer,
Complex otherwise — with the three stated concrete instances. -/
theorem claim_C2 : ∀ ref alt : String,
    (classifyVariant ref alt = "SNV" ∨ classifyVariant ref alt = "Deletion" ∨
     classifyVariant ref alt = "Insertion" ∨ classifyVariant ref alt = "Complex")
    ∧ (ref.length = 1 ∧ alt.length = 1 → classifyVariant ref alt = "SNV")
    ∧ (alt.length < ref.length → classifyVariant ref alt = "Deletion")
    ∧ (ref.length < alt.length → classifyVariant ref alt = "Insertion")
    ∧ (ref.length = alt.length → ¬(ref.length = 1 ∧ alt.length = 1) →
        classifyVariant ref alt = "Complex")
    ∧ classifyVariant "A" "T" = "SNV"
    ∧ classifyVariant "AT" "A" = "Deletion"
    ∧ classifyVariant "A" "AT" = "Insertion" := by
  intro ref alt
  refine ⟨?_, ?_, ?_, ?_, ?_, by decide, by decide, by decide⟩ <;>
    unfold classifyVariant <;> split_ifs with h1 h2 h3 <;> simp_all <;> omega

/-- Claim C2 witness: the theorem applied at REF "AT" and ALT "A". -/
theorem claim_C2_witness :
    classifyVariant "AT" "A" = "Deletion" ∧ classifyVariant "GG" "AA" = "Complex" :=
  ⟨(claim_C2 "AT" "A").2.2.1 (by decide),
   (claim_C2 "GG" "AA").2.2.2.2.1 (by decide) (by decide)⟩

/-- Claim C4 counterexample: chromosome normalization strips one leading
chr prefix only, so it is not idempotent on the string chrchr19 — one
application gives chr19, a second gives 19. -/
theorem claim_C4_counterexample :
    ¬ (normalizeChrom (normalizeChrom ['c', 'h', 'r', 'c', 'h', 'r', '1', '9']) =
       normalizeChrom ['c', 'h', 'r', 'c', 'h', 'r', '1', '9']) := by decide

/-- Claim C4 (amended): chromosome normalization is idempotent on every
chromosome string whose normalized form does not itself begin with chr
(equivalently, on every input not beginning with chrchr), and
normalize(chr19) = normalize(19) = 19. -/
theorem claim_C4 :
    (∀ c : List Char, ['c', 'h', 'r'].isPrefixOf (normalizeChrom c) = false →
      normalizeChrom (normalizeChrom c) = normalizeChrom c)
    ∧ normalizeChrom ['c', 'h', 'r', '1', '9'] = ['1', '9']
    ∧ normalizeChrom ['1', '9'] = ['1', '9'] := by
  refine ⟨?_, by decide, by decide⟩
  intro c h
  have hu : normalizeChrom (normalizeChrom c) =
      if ['c', 'h', 'r'].isPrefixOf (normalizeChrom c) then (normalizeChrom c).drop 3
      else normalizeChrom c := rfl
  rw [hu, h]
  simp

/-- Claim C4 witness: the amended idempotence applied at chr19. -/
theorem claim_C4_witness :
    normalizeChrom (normalizeChrom ['c', 'h', 'r', '1', '9']) =
      normalizeChrom ['c', 'h', 'r', '1', '9'] :=
  claim_C4.1 ['c', 'h', 'r', '1', '9'] (by decide)

theorem calcGS_no_separator (gt : String) (w : ℚ)
    (h1 : gt.data.contains '/' = false) (h2 : gt.data.contains '|' = false) :
    calculateGenotypeScore (some gt) w = 1/2 := by
  unfold calculateGenotypeScore
  dsimp only
  rw [h1, h2]
  simp

theorem calcGS_slash (gt : String) (w : ℚ) (h1 : gt.data.contains '/' = true) :
    calculateGenotypeScore (some gt) w =
      (if (pySplitChar '/' gt).count "1" = 0 then 0
       else if (pySplitChar '/' gt).count "1" = 1 then 1
       else if (pySplitChar '/' gt).count "1" = 2 then 2 else 1) := by
  unfold calculateGenotypeScore
  dsimp only
  rw [h1]
  simp

theorem calcGS_pipe (gt : String) (w : ℚ)
    (h1 : gt.data.contains '/' = false) (h2 : gt.data.contains '|' = true) :
    calculateGenotypeScore (some gt) w =
      (if (pySplitChar '|' gt).count "1" = 0 then 0
       else if (pySplitChar '|' gt).count "1" = 1 then 1
       else if (pySplitChar '|' gt).count "1" = 2 then 2 else 1) := by
  unfold calculateGenotypeScore
  dsimp only
  rw [h1, h2]
  simp

/-- Claim C5: the genotype multiplier splits the genotype on slash (or pipe
when no slash is present) and maps the count of alleles equal to "1" through
0↦0.0, 1↦1.0, 2↦2.0, other↦1.0; a string with neither separator gives the
0.5 default; and every recorded matched-variant contribution equals
weight times the genotype multiplier of its genotype. -/
theorem claim_C5 :
    (∀ (gt : String) (w : ℚ), gt.data.contains '/' = false →
      gt.data.contains '|' = false → calculateGenotypeScore (some gt) w = 1/2)
    ∧ (∀ (gt : String) (w : ℚ), gt.data.contains '/' = true →
        (((pySplitChar '/' gt).count "1" = 0 → calculateGenotypeScore (some gt) w = 0)
        ∧ ((pySplitChar '/' gt).count "1" = 1 → calculateGenotypeScore (some gt) w = 1)
        ∧ ((pySplitChar '/' gt).count "1" = 2 → calculateGenotypeScore (some gt) w = 2)
        ∧ (3 ≤ (pySplitChar '/' gt).count "1" → calculateGenotypeScore (some gt) w = 1)))
    ∧ (∀ (gt : String) (w : ℚ), gt.data.contains '/' = false →
        gt.data.contains '|' = true →
        (((pySplitChar '|' gt).count "1" = 0 → calculateGenotypeScore (some gt) w = 0)
        ∧ ((pySplitChar '|' gt).count "1" = 1 → calculateGenotypeScore (some gt) w = 1)
        ∧ ((pySplitChar '|' gt).count "1" = 2 → calculateGenotypeScore (some gt) w = 2)
        ∧ (3 ≤ (pySplitChar '|' gt).count "1" → calculateGenotypeScore (some gt) w = 1)))
    ∧ (∀ (vs : List PrsVariant) (d : String),
        List.Forall (fun km : String × MatchedVariant =>
          km.2.genotypeScore = calculateGenotypeScore km.2.genotype km.2.weight ∧
          km.2.contribution = km.2.weight * km.2.genotypeScore)
          ((calculatePrs vs d).contributingList)) := by
  refine ⟨?_, ?_, ?_, ?_⟩
  · exact calcGS_no_separator
  · intro gt w h1
    rw [calcGS_slash gt w h1]
    refine ⟨?_, ?_, ?_, ?_⟩ <;> intro hc <;> split_ifs <;> first | rfl | (exfalso; omega)
  · intro gt w h1 h2
    rw [calcGS_pipe gt w h1 h2]
    refine ⟨?_, ?_, ?_, ?_⟩ <;> intro hc <;> split_ifs <;> first | rfl | (exfalso; omega)
  · intro vs d
    rw [List.forall_iff_forall_mem]
    intro km hkm
    by_cases h0 : (prsLoop (diseaseSnpWeights (pyLower d)) vs ([], [])).1.length = 0
    · have he : calculatePrs vs d = calculatePopulationBasedScore vs d := by
        unfold calculatePrs
        rw [if_pos h0]
      rw [he] at hkm
      unfold calculatePopulationBasedScore PrsResult.contributingList at hkm
      cases hkm
    · have he : (calculatePrs vs d).contributingList =
          (prsLoop (diseaseSnpWeights (pyLower d)) vs ([], [])).1 := by
        unfold calculatePrs
        rw [if_neg h0]
        rfl
      rw [he] at hkm
      exact prsLoop_contrib_ok _ vs ([], []) (by intro km h; cases h) km hkm

/-- Claim C5 witness: the theorem applied to the genotypes XX (no separator),
1/1 (two risk alleles) and 0|1 (one risk allele, pipe-separated). -/
theorem claim_C5_witness :
    calculateGenotypeScore (some "XX") 1 = 1/2
    ∧ calculateGenotypeScore (some "1/1") 1 = 2
    ∧ calculateGenotypeScore (some "0|1") 1 = 1 :=
  ⟨claim_C5.1 "XX" 1 (by decide) (by decide),
   (claim_C5.2.1 "1/1" 1 (by decide)).2.2.1 (by decide),
   (claim_C5.2.2.1 "0|1" 1 (by decide) (by decide)).2.1 (by decide)⟩

theorem popScore_shape (vs : List PrsVariant) (d : String) :
    ∃ (r : PopulationPrsResult) (x : ℚ),
      calculatePopulationBasedScore vs d = PrsResult.populationBased r ∧
      r.normalizedPrs = max 0 (min 1 x) :=
  ⟨_, _, rfl, rfl⟩

/-- Claim C1: for every input variant list and every disease key the risk
calculator returns a non-error result whose score lies in the unit interval,
and when no supplied variant matches the weight table of the disease the
result is the population-based fallback labeled population_based (whose
score is clamped like every other score). -/
theorem claim_C1 : ∀ (vs : List PrsVariant) (d : String),
    (∀ m : String, calculatePrs vs d ≠ PrsResult.prsError m)
    ∧ (∃ s, (calculatePrs vs d).scoreValue = some s ∧ 0 ≤ s ∧ s ≤ 1)
    ∧ ((∀ v ∈ vs, matchesDiseaseB (diseaseSnpWeights (pyLower d)) v = false) →
        (calculatePrs vs d).methodTag = some "population_based") := by
  intro vs d
  by_cases h0 : (prsLoop (diseaseSnpWeights (pyLower d)) vs ([], [])).1.length = 0
  · have he : calculatePrs vs d = calculatePopulationBasedScore vs d := by
      unfold calculatePrs
      rw [if_pos h0]
    obtain ⟨r, x, hr, hx⟩ := popScore_shape vs d
    refine ⟨?_, ?_, ?_⟩
    · intro m
      rw [he, hr]
      exact fun h => PrsResult.noConfusion h
    · refine ⟨r.normalizedPrs, by rw [he, hr]; rfl, ?_, ?_⟩
      · rw [hx]; exact (clamp01_bounds x).1
      · rw [hx]; exact (clamp01_bounds x).2
    · intro _
      rw [he, hr]
      rfl
  · have he : ∃ r : SnpPrsResult, calculatePrs vs d = PrsResult.snpBased r ∧
        ∃ x, r.score = max 0 (min 1 x) := by
      unfold calculatePrs
      rw [if_neg h0]
      refine ⟨_, rfl, ?_⟩
      dsimp only
      split_ifs <;> exact ⟨_, rfl⟩
    obtain ⟨r, hr, x, hx⟩ := he
    refine ⟨?_, ?_, ?_⟩
    · intro m
      rw [hr]
      exact fun h => PrsResult.noConfusion h
    · refine ⟨r.score, by rw [hr]; rfl, ?_, ?_⟩
      · rw [hx]; exact (clamp01_bounds x).1
      · rw [hx]; exact (clamp01_bounds x).2
    · intro hall
      exact absurd (by rw [prsLoop_all_no_match _ vs ([], []) hall]; rfl) h0

/-- Claim C1 witness: the theorem applied to a one-variant list whose
identifier matches no diabetes table entry. -/
theorem claim_C1_witness :
    (∃ s, (calculatePrs [{ id := some "rs0000" }] "diabetes").scoreValue = some s ∧
      0 ≤ s ∧ s ≤ 1)
    ∧ (calculatePrs [{ id := some "rs0000" }] "diabetes").methodTag =
        some "population_based" :=
  ⟨(claim_C1 [{ id := some "rs0000" }] "diabetes").2.1,
   (claim_C1 [{ id := some "rs0000" }] "diabetes").2.2 (by decide)⟩

/-- Claim C10: a matched variant whose genotype key is missing (read with the
default 0/1) or whose genotype value is None (the TypeError path of the score
helper) is scored with the heterozygous multiplier 1.0, so its recorded
contribution equals its table weight exactly. -/
theorem claim_C10 : ∀ (d vid : String) (w : ℚ) (v : PrsVariant),
    (diseaseSnpWeights (pyLower d)).lookup vid = some w →
    v.id = some vid → vid ≠ "" →
    (v.genotype = none ∨ v.genotype = some none) →
    ∃ m : MatchedVariant,
      (calculatePrs [v] d).contributingList = [(vid, m)]
      ∧ m.genotypeScore = 1 ∧ m.contribution = w
      ∧ ∃ r : SnpPrsResult, calculatePrs [v] d = PrsResult.snpBased r ∧ r.rawPrs = w := by
  intro d vid w v hlk hid hvid hgt
  have hg : calculateGenotypeScore (v.genotype.getD (some "0/1")) w = 1 := by
    rcases hgt with h | h <;> rw [h] <;> rfl
  have hloop : prsLoop (diseaseSnpWeights (pyLower d)) [v] ([], []) =
      ([(vid, mkMatched w v)],
       [w * calculateGenotypeScore (v.genotype.getD (some "0/1")) w]) := by
    unfold prsLoop prsStep
    rw [hid]
    dsimp only
    rw [if_neg hvid, hlk]
    rfl
  have hne : ¬ (prsLoop (diseaseSnpWeights (pyLower d)) [v] ([], [])).1.length = 0 := by
    rw [hloop]
    simp
  have hcl : (calculatePrs [v] d).contributingList = [(vid, mkMatched w v)] := by
    unfold calculatePrs
    rw [if_neg hne, hloop]
    rfl
  have hcontrib : (mkMatched w v).contribution = w := by
    show w * calculateGenotypeScore (v.genotype.getD (some "0/1")) w = w
    rw [hg, mul_one]
  have hshape : ∃ r : SnpPrsResult, calculatePrs [v] d = PrsResult.snpBased r ∧
      r.rawPrs = w := by
    unfold calculatePrs
    rw [if_neg hne]
    refine ⟨_, rfl, ?_⟩
    show (prsLoop (diseaseSnpWeights (pyLower d)) [v] ([], [])).2.sum = w
    rw [hloop]
    simp [hg]
  exact ⟨mkMatched w v, hcl, hg, hcontrib, hshape⟩

/-- Claim C10 witness: the theorem applied to the alzheimer table entry
rs429358, once for a missing genotype key and once for a stored None. -/
theorem claim_C10_witness :
    (∃ m : MatchedVariant,
      (calculatePrs [{ id := some "rs429358" }] "alzheimer").contributingList =
        [("rs429358", m)]
      ∧ m.genotypeScore = 1 ∧ m.contribution = 112/100
      ∧ ∃ r : SnpPrsResult,
          calculatePrs [{ id := some "rs429358" }] "alzheimer" = PrsResult.snpBased r ∧
          r.rawPrs = 112/100)
    ∧ (∃ m : MatchedVariant,
      (calculatePrs [{ id := some "rs429358", genotype := some none }]
          "alzheimer").contributingList = [("rs429358", m)]
      ∧ m.genotypeScore = 1 ∧ m.contribution = 112/100
      ∧ ∃ r : SnpPrsResult,
          calculatePrs [{ id := some "rs429358", genotype := some none }] "alzheimer" =
            PrsResult.snpBased r ∧ r.rawPrs = 112/100) :=
  ⟨claim_C10 "alzheimer" "rs429358" (112/100) { id := some "rs429358" } rfl rfl
      (by decide) (Or.inl rfl),
   claim_C10 "alzheimer" "rs429358" (112/100)
      { id := some "rs429358", genotype := some none } rfl rfl (by decide) (Or.inr rfl)⟩

/-- The variant of the specification scenario: identifier rs429358 with
genotype 1/1. -/
def alzheimerScenarioVariant : PrsVariant :=
  { id := some "rs429358", genotype := some (some "1/1") }

/-- Claim C6: when at least one supplied variant matches the disease table,
calculate_prs returns the snp_based result whose score is the raw
contribution sum put through the disease-specific affine map and clamped to
the unit interval, and whose confidence is the matched/possible ratio capped
at 1; in the alzheimer scenario the rs429358 variant with genotype 1/1
contributes weight times 2.0 and the confidence is 1/4. -/
theorem claim_C6 :
    (∀ (vs : List PrsVariant) (d : String) (v : PrsVariant), v ∈ vs →
      matchesDiseaseB (diseaseSnpWeights (pyLower d)) v = true →
      ∃ r : SnpPrsResult, calculatePrs vs d = PrsResult.snpBased r
        ∧ (calculatePrs vs d).methodTag = some "snp_based"
        ∧ r.totalPossibleVariants = (diseaseSnpWeights (pyLower d)).length
        ∧ r.rawPrs = specRawScore (diseaseSnpWeights (pyLower d)) vs
        ∧ r.score = max 0 (min 1
            (if pyLower d = "diabetes" then (r.rawPrs + 1) / 3
             else if pyLower d = "alzheimer" then (r.rawPrs + 1) / 4
             else (r.rawPrs + 2) / 4))
        ∧ r.confidence = min 1 ((r.variantsUsed : ℚ) / (r.totalPossibleVariants : ℚ)))
    ∧ calculatePrs [alzheimerScenarioVariant] "alzheimer" = PrsResult.snpBased
        { diseaseType := "alzheimer", score := 81/100, rawPrs := 112/100 * 2,
          variantsUsed := 1, totalPossibleVariants := 4, confidence := 1/4,
          contributingVariants := [("rs429358",
            { weight := 112/100, genotype := some "1/1", genotypeScore := 2,
              contribution := 112/100 * 2, chromosome := none, position := none })],
          interpretation := "Very High Risk" } := by
  constructor
  · intro vs d v hv hm
    have hpos : 0 < (prsLoop (diseaseSnpWeights (pyLower d)) vs ([], [])).1.length :=
      prsLoop_found_nonempty _ vs v hv hm ([], [])
    have hne : ¬ (prsLoop (diseaseSnpWeights (pyLower d)) vs ([], [])).1.length = 0 := by
      omega
    have hsnps : diseaseSnpWeights (pyLower d) ≠ [] := by
      intro hnil
      unfold matchesDiseaseB at hm
      cases hid : v.id with
      | none => rw [hid] at hm; cases hm
      | some vid =>
        rw [hid, hnil] at hm
        simp [List.lookup] at hm
    have h1len : 1 ≤ (diseaseSnpWeights (pyLower d)).length := by
      cases hsn : diseaseSnpWeights (pyLower d) with
      | nil => exact absurd hsn hsnps
      | cons a l => simp
    have hmax : max 1 (diseaseSnpWeights (pyLower d)).length =
        (diseaseSnpWeights (pyLower d)).length := Nat.max_eq_right h1len
    unfold calculatePrs
    rw [if_neg hne]
    refine ⟨_, rfl, rfl, rfl, ?_, ?_, ?_⟩
    · show (prsLoop (diseaseSnpWeights (pyLower d)) vs ([], [])).2.sum =
        specRawScore (diseaseSnpWeights (pyLower d)) vs
      rw [prsLoop_sum]
      simp
    · dsimp only
      split_ifs <;> rfl
    · dsimp only
      rw [hmax]
  · have hloop : prsLoop (diseaseSnpWeights (pyLower "alzheimer"))
        [alzheimerScenarioVariant] ([], []) =
        ([("rs429358",
           { weight := 112/100, genotype := some "1/1", genotypeScore := 2,
             contribution := 112/100 * 2, chromosome := none, position := none })],
         [((112:ℚ)/100) * 2]) := rfl
    have hne : ¬ (prsLoop (diseaseSnpWeights (pyLower "alzheimer"))
        [alzheimerScenarioVariant] ([], [])).1.length = 0 := by
      rw [hloop]
      simp
    have hsc : max 0 (min 1 ((List.sum [((112:ℚ)/100) * 2] + 1) / 4)) = 81/100 := by
      simp only [List.sum_cons, List.sum_nil, add_zero]
      rw [min_eq_right (by norm_num), max_eq_right (by norm_num)]
      norm_num
    unfold calculatePrs
    rw [if_neg hne, hloop]
    dsimp only
    rw [if_neg (by decide : ¬ pyLower "alzheimer" = "diabetes"),
      if_pos (by decide : pyLower "alzheimer" = "alzheimer")]
    rw [PrsResult.snpBased.injEq, SnpPrsResult.mk.injEq]
    refine ⟨rfl, hsc, ?_, rfl, rfl, ?_, rfl, ?_⟩
    · simp
    · rw [show (diseaseSnpWeights (pyLower "alzheimer")).length = 4 from rfl]
      norm_num
    · rw [hsc]
      unfold interpretPrsScore
      rw [if_pos (by norm_num : (81:ℚ)/100 ≥ 8/10)]

/-- Claim C6 witness: the snp_based branch applied to the scenario variant
list; the match hypothesis is discharged by computation. -/
theorem claim_C6_witness :
    ∃ r : SnpPrsResult,
      calculatePrs [alzheimerScenarioVariant] "alzheimer" = PrsResult.snpBased r
      ∧ (calculatePrs [alzheimerScenarioVariant] "alzheimer").methodTag = some "snp_based"
      ∧ r.totalPossibleVariants = (diseaseSnpWeights (pyLower "alzheimer")).length
      ∧ r.rawPrs = specRawScore (diseaseSnpWeights (pyLower "alzheimer"))
          [alzheimerScenarioVariant]
      ∧ r.score = max 0 (min 1
          (if pyLower "alzheimer" = "diabetes" then (r.rawPrs + 1) / 3
           else if pyLower "alzheimer" = "alzheimer" then (r.rawPrs + 1) / 4
           else (r.rawPrs + 2) / 4))
      ∧ r.confidence = min 1 ((r.variantsUsed : ℚ) / (r.totalPossibleVariants : ℚ)) :=
  claim_C6.1 [alzheimerScenarioVariant] "alzheimer" alzheimerScenarioVariant
    (List.mem_singleton.mpr rfl) (by decide)

theorem length_filterMap_of_all_isSome {α β : Type} (f : α → Option β) :
    ∀ l : List α, (∀ x ∈ l, (f x).isSome) → (l.filterMap f).length = l.length := by
  intro l
  induction l with
  | nil => intro _; rfl
  | cons a l ih =>
    intro h
    have ha := h a (List.mem_cons_self a l)
    obtain ⟨b, hb⟩ := Option.isSome_iff_exists.mp ha
    rw [List.filterMap_cons, hb]
    simp only [List.length_cons]
    rw [ih (fun x hx => h x (List.mem_cons_of_mem a hx))]

/-- Claim C3: for every valid variant file (one in which every candidate
variant line parses), the reported sample_analyzed is at most total_variants,
with equality whenever total_variants is at most 50000. -/
theorem claim_C3 : ∀ lines : List String,
    (∀ l ∈ lines.filter isCandidateLine, (parseVariantLine l).isSome) →
    vcfSampleAnalyzed (parseVcf lines) ≤ vcfTotalVariants (parseVcf lines)
    ∧ (vcfTotalVariants (parseVcf lines) ≤ 50000 →
       vcfSampleAnalyzed (parseVcf lines) = vcfTotalVariants (parseVcf lines)) := by
  intro lines hvalid
  by_cases hempty : (lines.filter isCandidateLine).isEmpty
  · have he : parseVcf lines = Except.error "No variants found in VCF file" := by
      unfold parseVcf
      rw [if_pos hempty]
    rw [he]
    exact ⟨le_refl 0, fun _ => rfl⟩
  · have he : parseVcf lines = Except.ok {
        totalVariants := (lines.filter isCandidateLine).length
        sampleAnalyzed := (((lines.filter isCandidateLine).take 50000).filterMap
          parseVariantLine).length
        parsedVariants := ((lines.filter isCandidateLine).take 50000).filterMap
          parseVariantLine
        sampleVariants := (((lines.filter isCandidateLine).take 50000).filterMap
          parseVariantLine).take 5 } := by
      unfold parseVcf
      rw [if_neg hempty]
    rw [he]
    unfold vcfSampleAnalyzed vcfTotalVariants
    constructor
    · calc (((lines.filter isCandidateLine).take 50000).filterMap parseVariantLine).length
          ≤ ((lines.filter isCandidateLine).take 50000).length :=
            List.length_filterMap_le _ _
        _ ≤ (lines.filter isCandidateLine).length := by
            rw [List.length_take]
            exact min_le_right _ _
    · intro h50
      have htake : (lines.filter isCandidateLine).take 50000 = lines.filter isCandidateLine :=
        List.take_of_length_le h50
      rw [htake]
      exact length_filterMap_of_all_isSome parseVariantLine _ hvalid

/-- Claim C3 witness: the theorem applied to a two-line file with a header
line and one well-formed variant line. -/
theorem claim_C3_witness :
    vcfSampleAnalyzed (parseVcf ["##fileformat=VCFv4.2", "1\t100\trs1\tA\tT\t.\tPASS\tDP=3"])
      ≤ vcfTotalVariants (parseVcf ["##fileformat=VCFv4.2", "1\t100\trs1\tA\tT\t.\tPASS\tDP=3"])
    ∧ (vcfTotalVariants (parseVcf ["##fileformat=VCFv4.2", "1\t100\trs1\tA\tT\t.\tPASS\tDP=3"])
        ≤ 50000 →
       vcfSampleAnalyzed (parseVcf ["##fileformat=VCFv4.2", "1\t100\trs1\tA\tT\t.\tPASS\tDP=3"])
        = vcfTotalVariants (parseVcf ["##fileformat=VCFv4.2", "1\t100\trs1\tA\tT\t.\tPASS\tDP=3"])) :=
  claim_C3 ["##fileformat=VCFv4.2", "1\t100\trs1\tA\tT\t.\tPASS\tDP=3"] (by decide)

/-- Claim C8: a candidate line with fewer than 8 tab-separated columns is
skipped, a line whose position field is not an integer is skipped, and a
malformed candidate line is skipped individually while the rest of the file
is parsed — the whole-file parse still returns a non-error result. -/
theorem claim_C8 :
    (∀ line : String, (pySplitChar '\t' line).length < 8 → parseVariantLine line = none)
    ∧ (∀ line : String, 8 ≤ (pySplitChar '\t' line).length →
        pyInt ((pySplitChar '\t' line).getD 1 "") = none → parseVariantLine line = none)
    ∧ (∀ (pre post : List String) (bad : String),
        isCandidateLine bad = true → parseVariantLine bad = none →
        ((pre ++ bad :: post).filter isCandidateLine).length ≤ 50000 →
        ∃ r : VcfResult, parseVcf (pre ++ bad :: post) = Except.ok r
          ∧ r.parsedVariants =
              ((pre ++ post).filter isCandidateLine).filterMap parseVariantLine
          ∧ r.totalVariants = ((pre ++ post).filter isCandidateLine).length + 1) := by
  refine ⟨?_, ?_, ?_⟩
  · intro line h
    unfold parseVariantLine
    rw [if_pos h]
  · intro line h8 hpos
    unfold parseVariantLine
    rw [if_neg (by omega)]
    dsimp only
    rw [hpos]
  · intro pre post bad hbad hskip hlen
    have hfil : (pre ++ bad :: post).filter isCandidateLine =
        pre.filter isCandidateLine ++ bad :: post.filter isCandidateLine := by
      rw [List.filter_append, List.filter_cons_of_pos hbad]
    have hne : ¬ ((pre ++ bad :: post).filter isCandidateLine).isEmpty := by
      rw [hfil]
      simp
    have htake : ((pre ++ bad :: post).filter isCandidateLine).take 50000 =
        (pre ++ bad :: post).filter isCandidateLine := List.take_of_length_le hlen
    have hfil2 : (pre ++ post).filter isCandidateLine =
        pre.filter isCandidateLine ++ post.filter isCandidateLine := List.filter_append _ _
    unfold parseVcf
    rw [if_neg hne]
    refine ⟨_, rfl, ?_, ?_⟩
    · rw [htake, hfil, hfil2, List.filterMap_append, List.filterMap_cons, hskip,
        List.filterMap_append]
    · rw [hfil, hfil2]
      simp [Nat.add_comm, Nat.add_assoc, Nat.add_left_comm]

/-- Claim C8 witness: a five-column line is rejected, a line with a
non-numeric position is rejected, and inserting the malformed line badline
between a good line and nothing leaves a non-error parse of the good line. -/
theorem claim_C8_witness :
    parseVariantLine "1\t100\trs1\tA\tT" = none
    ∧ parseVariantLine "1\tnotanum\trs1\tA\tT\t.\tPASS\tDP=3" = none
    ∧ ∃ r : VcfResult,
        parseVcf (["1\t100\trs1\tA\tT\t.\tPASS\tDP=3"] ++ "badline" :: []) = Except.ok r
        ∧ r.parsedVariants =
            ((["1\t100\trs1\tA\tT\t.\tPASS\tDP=3"] ++ ([] : List String)).filter
              isCandidateLine).filterMap parseVariantLine
        ∧ r.totalVariants =
            ((["1\t100\trs1\tA\tT\t.\tPASS\tDP=3"] ++ ([] : List String)).filter
              isCandidateLine).length + 1 :=
  ⟨claim_C8.1 "1\t100\trs1\tA\tT" (by decide),
   claim_C8.2.1 "1\tnotanum\trs1\tA\tT\t.\tPASS\tDP=3" (by decide) (by decide),
   claim_C8.2.2 ["1\t100\trs1\tA\tT\t.\tPASS\tDP=3"] [] "badline" (by decide) (by decide)
     (by decide)⟩

theorem applyDuplicationCheck_overall (dm : Option (Option ℚ)) (qa : QualityAssessment) :
    (applyDuplicationCheck dm qa).overallQuality = qa.overallQuality := by
  unfold applyDuplicationCheck
  cases dm with
  | none => rfl
  | some dr => dsimp only; split_ifs <;> rfl

theorem applyDuplicationCheck_pass (dm : Option (Option ℚ)) (qa : QualityAssessment) :
    (applyDuplicationCheck dm qa).passFilters = qa.passFilters := by
  unfold applyDuplicationCheck
  cases dm with
  | none => rfl
  | some dr => dsimp only; split_ifs <;> rfl

theorem applyDuplicationCheck_recs_mem (dm : Option (Option ℚ)) (qa : QualityAssessment)
    (a : String) (h : a ∈ qa.recommendations) :
    a ∈ (applyDuplicationCheck dm qa).recommendations := by
  unfold applyDuplicationCheck
  cases dm with
  | none => exact h
  | some dr =>
    dsimp only
    split_ifs <;> first | exact h | exact List.mem_append_left _ h

theorem applyDuplicationCheck_issues_mem (dm : Option (Option ℚ)) (qa : QualityAssessment)
    (a : String) (h : a ∈ qa.issues) : a ∈ (applyDuplicationCheck dm qa).issues := by
  unfold applyDuplicationCheck
  cases dm with
  | none => exact h
  | some dr =>
    dsimp only
    split_ifs <;> first | exact h | exact List.mem_append_left _ h

theorem applyReadLengthCheck_overall (rl : Option (Option ℚ)) (qa : QualityAssessment) :
    (applyReadLengthCheck rl qa).overallQuality = qa.overallQuality := by
  unfold applyReadLengthCheck
  cases rl with
  | none => rfl
  | some st => dsimp only; split_ifs <;> rfl

theorem applyReadLengthCheck_pass (rl : Option (Option ℚ)) (qa : QualityAssessment) :
    (applyReadLengthCheck rl qa).passFilters = qa.passFilters := by
  unfold applyReadLengthCheck
  cases rl with
  | none => rfl
  | some st => dsimp only; split_ifs <;> rfl

theorem applyReadLengthCheck_recs (rl : Option (Option ℚ)) (qa : QualityAssessment) :
    (applyReadLengthCheck rl qa).recommendations = qa.recommendations := by
  unfold applyReadLengthCheck
  cases rl with
  | none => rfl
  | some st => dsimp only; split_ifs <;> rfl

theorem applyReadLengthCheck_issues_mem (rl : Option (Option ℚ)) (qa : QualityAssessment)
    (a : String) (h : a ∈ qa.issues) : a ∈ (applyReadLengthCheck rl qa).issues := by
  unfold applyReadLengthCheck
  cases rl with
  | none => exact h
  | some st =>
    dsimp only
    split_ifs <;> first | exact h | exact List.mem_append_left _ h

theorem applyVariantCountCheck_overall (total : Nat) (qa : QualityAssessment) :
    (applyVariantCountCheck total qa).overallQuality = qa.overallQuality := by
  unfold applyVariantCountCheck
  split_ifs <;> rfl

theorem applyVariantCountCheck_pass (total : Nat) (qa : QualityAssessment) :
    (applyVariantCountCheck total qa).passFilters = qa.passFilters := by
  unfold applyVariantCountCheck
  split_ifs <;> rfl

theorem fastqThresholds_overall (mq : ℚ) :
    (applyFastqQualityThresholds (some (QualityMetricsValue.metrics (some mq)))).overallQuality =
      (if mq ≥ 30 then "Excellent" else if mq ≥ 25 then "Good"
       else if mq ≥ 20 then "Acceptable" else "Poor") := by
  unfold applyFastqQualityThresholds
  simp only [Option.getD_some]
  split_ifs <;> rfl

theorem fastqThresholds_poor_pass (qm : Option QualityMetricsValue)
    (h : (applyFastqQualityThresholds qm).overallQuality = "Poor") :
    (applyFastqQualityThresholds qm).passFilters = false := by
  unfold applyFastqQualityThresholds at h ⊢
  cases qm with
  | none => exact absurd h (by decide)
  | some v =>
    cases v with
    | noData => exact absurd h (by decide)
    | metrics mq =>
      dsimp only at h ⊢
      split_ifs at h ⊢ <;> simp_all [initialAssessment]

theorem vcfThresholds_poor_pass (qm : Option QualityMetricsValue)
    (h : (applyVcfQualityThresholds qm).overallQuality = "Poor") :
    (applyVcfQualityThresholds qm).passFilters = false := by
  unfold applyVcfQualityThresholds at h ⊢
  cases qm with
  | none => exact absurd h (by decide)
  | some v =>
    cases v with
    | noData => exact absurd h (by decide)
    | metrics mq =>
      dsimp only at h ⊢
      split_ifs at h ⊢ <;> simp_all [initialAssessment]

/-- The ordinal rank of a quality verdict: Poor and Unknown at the bottom,
then Acceptable, Good, Excellent. -/
def verdictRank (s : String) : Nat :=
  if s = "Excellent" then 3 else if s = "Good" then 2 else if s = "Acceptable" then 1 else 0

theorem verdictRank_le_three (s : String) : verdictRank s ≤ 3 := by
  unfold verdictRank
  split_ifs <;> omega

/-- Claim C7: with quality metrics present the read-data verdict follows the
documented thresholds — mean at least 30 is Excellent, at least 25 Good, at
least 20 Acceptable with a quality-trimming recommendation, below 20 Poor
with an issue recorded and failed filters — and the verdict is a monotone
function of the mean quality. -/
theorem claim_C7 :
    (∀ (md : FastqMetadata) (mq : ℚ),
      md.qualityMetrics = some (QualityMetricsValue.metrics (some mq)) →
        ((30 ≤ mq → (assessFastqQuality md).overallQuality = "Excellent")
        ∧ (25 ≤ mq → mq < 30 → (assessFastqQuality md).overallQuality = "Good")
        ∧ (20 ≤ mq → mq < 25 →
            (assessFastqQuality md).overallQuality = "Acceptable"
            ∧ "Consider quality trimming" ∈ (assessFastqQuality md).recommendations)
        ∧ (mq < 20 →
            (assessFastqQuality md).overallQuality = "Poor"
            ∧ "Low overall quality scores" ∈ (assessFastqQuality md).issues
            ∧ (assessFastqQuality md).passFilters = false)))
    ∧ (∀ (md₁ md₂ : FastqMetadata) (q₁ q₂ : ℚ),
        md₁.qualityMetrics = some (QualityMetricsValue.metrics (some q₁)) →
        md₂.qualityMetrics = some (QualityMetricsValue.metrics (some q₂)) →
        q₁ ≤ q₂ →
        verdictRank (assessFastqQuality md₁).overallQuality ≤
          verdictRank (assessFastqQuality md₂).overallQuality) := by
  have hov : ∀ (md : FastqMetadata) (mq : ℚ),
      md.qualityMetrics = some (QualityMetricsValue.metrics (some mq)) →
      (assessFastqQuality md).overallQuality =
        (if mq ≥ 30 then "Excellent" else if mq ≥ 25 then "Good"
         else if mq ≥ 20 then "Acceptable" else "Poor") := by
    intro md mq hmd
    unfold assessFastqQuality
    rw [applyReadLengthCheck_overall, applyDuplicationCheck_overall, hmd,
      fastqThresholds_overall]
  constructor
  · intro md mq hmd
    refine ⟨?_, ?_, ?_, ?_⟩
    · intro h30
      rw [hov md mq hmd, if_pos (by linarith : mq ≥ 30)]
    · intro h25 h30
      rw [hov md mq hmd, if_neg (by linarith : ¬ mq ≥ 30), if_pos (by linarith : mq ≥ 25)]
    · intro h20 h25
      constructor
      · rw [hov md mq hmd, if_neg (by linarith : ¬ mq ≥ 30),
          if_neg (by linarith : ¬ mq ≥ 25), if_pos (by linarith : mq ≥ 20)]
      · unfold assessFastqQuality
        rw [applyReadLengthCheck_recs]
        refine applyDuplicationCheck_recs_mem _ _ _ ?_
        rw [hmd]
        unfold applyFastqQualityThresholds
        simp only [Option.getD_some]
        rw [if_neg (by linarith : ¬ mq ≥ 30), if_neg (by linarith : ¬ mq ≥ 25),
          if_pos (by linarith : mq ≥ 20)]
        simp [initialAssessment]
    · intro h20
      have hpoor : (assessFastqQuality md).overallQuality = "Poor" := by
        rw [hov md mq hmd, if_neg (by linarith : ¬ mq ≥ 30),
          if_neg (by linarith : ¬ mq ≥ 25), if_neg (by linarith : ¬ mq ≥ 20)]
      refine ⟨hpoor, ?_, ?_⟩
      · unfold assessFastqQuality
        refine applyReadLengthCheck_issues_mem _ _ _ ?_
        refine applyDuplicationCheck_issues_mem _ _ _ ?_
        rw [hmd]
        unfold applyFastqQualityThresholds
        simp only [Option.getD_some]
        rw [if_neg (by linarith : ¬ mq ≥ 30), if_neg (by linarith : ¬ mq ≥ 25),
          if_neg (by linarith : ¬ mq ≥ 20)]
        simp [initialAssessment]
      · unfold assessFastqQuality
        rw [applyReadLengthCheck_pass, applyDuplicationCheck_pass, hmd]
        unfold applyFastqQualityThresholds
        simp only [Option.getD_some]
        rw [if_neg (by linarith : ¬ mq ≥ 30), if_neg (by linarith : ¬ mq ≥ 25),
          if_neg (by linarith : ¬ mq ≥ 20)]
  · intro md₁ md₂ q₁ q₂ h₁ h₂ hle
    rw [hov md₁ q₁ h₁, hov md₂ q₂ h₂]
    by_cases ha : q₂ ≥ 30
    · rw [if_pos ha]
      exact le_trans (verdictRank_le_three _) (by decide)
    · by_cases hb : q₂ ≥ 25
      · rw [if_neg ha, if_pos hb, if_neg (show ¬ q₁ ≥ 30 by linarith)]
        split_ifs <;> decide
      · by_cases hc : q₂ ≥ 20
        · rw [if_neg ha, if_neg hb, if_pos hc, if_neg (show ¬ q₁ ≥ 30 by linarith),
            if_neg (show ¬ q₁ ≥ 25 by linarith)]
          split_ifs <;> decide
        · rw [if_neg ha, if_neg hb, if_neg hc, if_neg (show ¬ q₁ ≥ 30 by linarith),
            if_neg (show ¬ q₁ ≥ 25 by linarith), if_neg (show ¬ q₁ ≥ 20 by linarith)]

/-- Read metadata with mean quality 22 and no other sections, used as a
concrete instance. -/
def fastqMeta22 : FastqMetadata :=
  { qualityMetrics := some (QualityMetricsValue.metrics (some 22)) }

/-- Read metadata with mean quality 10 and no other sections, used as a
concrete instance. -/
def fastqMeta10 : FastqMetadata :=
  { qualityMetrics := some (QualityMetricsValue.metrics (some 10)) }

/-- Claim C7 witness: mean quality 22 gives Acceptable with the trimming
recommendation, and the verdict rank at mean 10 is at most the rank at 22. -/
theorem claim_C7_witness :
    ((assessFastqQuality fastqMeta22).overallQuality = "Acceptable"
      ∧ "Consider quality trimming" ∈ (assessFastqQuality fastqMeta22).recommendations)
    ∧ verdictRank (assessFastqQuality fastqMeta10).overallQuality ≤
      verdictRank (assessFastqQuality fastqMeta22).overallQuality :=
  ⟨(claim_C7.1 fastqMeta22 22 rfl).2.2.1 (by norm_num) (by norm_num),
   claim_C7.2 fastqMeta10 fastqMeta22 10 22 rfl rfl (by norm_num)⟩

/-- Read metadata with excellent mean quality and a high duplication rate. -/
def fastqMetaHighDup : FastqMetadata :=
  { qualityMetrics := some (QualityMetricsValue.metrics (some 35))
    duplicationMetrics := some (some 60) }

/-- Read metadata with excellent mean quality and a high read-length
standard deviation. -/
def fastqMetaVarLen : FastqMetadata :=
  { qualityMetrics := some (QualityMetricsValue.metrics (some 35))
    readLengthStd := some (some 12) }

/-- Claim C9: in both assessors pass_filters is false whenever the verdict is
Poor, and a nonempty issues list does not by itself force failure — a
high-duplication or variable-read-length issue leaves pass_filters true when
the verdict is not Poor. -/
theorem claim_C9 :
    (∀ md : FastqMetadata, (assessFastqQuality md).overallQuality = "Poor" →
      (assessFastqQuality md).passFilters = false)
    ∧ (∀ md : VcfMetadata, (assessVcfQuality md).overallQuality = "Poor" →
      (assessVcfQuality md).passFilters = false)
    ∧ ((assessFastqQuality fastqMetaHighDup).issues ≠ []
      ∧ (assessFastqQuality fastqMetaHighDup).overallQuality ≠ "Poor"
      ∧ (assessFastqQuality fastqMetaHighDup).passFilters = true)
    ∧ ((assessFastqQuality fastqMetaVarLen).issues ≠ []
      ∧ (assessFastqQuality fastqMetaVarLen).overallQuality ≠ "Poor"
      ∧ (assessFastqQuality fastqMetaVarLen).passFilters = true) := by
  refine ⟨?_, ?_, ?_, ?_⟩
  · intro md h
    unfold assessFastqQuality at h ⊢
    rw [applyReadLengthCheck_overall, applyDuplicationCheck_overall] at h
    rw [applyReadLengthCheck_pass, applyDuplicationCheck_pass]
    exact fastqThresholds_poor_pass _ h
  · intro md h
    unfold assessVcfQuality at h ⊢
    rw [applyVariantCountCheck_overall] at h
    rw [applyVariantCountCheck_pass]
    exact vcfThresholds_poor_pass _ h
  · refine ⟨?_, ?_, ?_⟩ <;> decide
  · refine ⟨?_, ?_, ?_⟩ <;> decide

/-- Claim C9 witness: the Poor-implies-failure direction applied to concrete
Poor metadata for both assessors. -/
theorem claim_C9_witness :
    (assessFastqQuality fastqMeta10).passFilters = false
    ∧ (assessVcfQuality { qualityMetrics := some (QualityMetricsValue.metrics (some 10)) }).passFilters = false :=
  ⟨claim_C9.1 fastqMeta10 (by decide),
   claim_C9.2.1 { qualityMetrics := some (QualityMetricsValue.metrics (some 10)) } (by decide)⟩
